import Mathlib

/-!
Shallow embedding of the ETDX template generator of this repository
(src/etdx_generator.py) together with the image-padding step of the
surrounding driver (src/main.py, convert_process), and theorems checking
the specification's claims about them.

Numbers inside JSON documents are modelled as rationals: every float the
generator handles is only ever built from a decimal literal or an integer
and then stored or compared, never computed with, so rational literals are
an exact model.  Filesystem paths are modelled as lists of components, and
the filesystem itself as the list of paths that currently exist; the
fallible filesystem and image operations of one packaging run are modelled
as an explicit operation list executed by a small interpreter into which
an I/O failure can be injected at any single operation index.
-/

namespace Etdx

/-- JSON values, the data the generator manipulates.  An object is an
ordered list of key/value bindings, mirroring Python dict insertion order;
keys of documents handled by the generator are unique. -/
inductive Json where
  | null : Json
  | bool (b : Bool) : Json
  | num (q : ℚ) : Json
  | str (s : String) : Json
  | arr (elems : List Json) : Json
  | obj (fields : List (String × Json)) : Json

/-- Reading a key of a JSON object, Python `d[k]`: the value of the first
binding whose key matches. -/
def lookupField : List (String × Json) → String → Option Json
  | [], _ => none
  | (k', v) :: rest, k => if k' = k then some v else lookupField rest k

/-- Writing a key of a JSON object, Python `d[k] = v`: replace the value of
the first binding whose key matches keeping its position, or append a new
binding at the end when the key is absent (dict assignment semantics; keys
of the documents involved are unique, so first-match replacement agrees
with dict update). -/
def setField : List (String × Json) → String → Json → List (String × Json)
  | [], k, v => [(k, v)]
  | (k', v') :: rest, k, v =>
    if k' = k then (k', v) :: rest else (k', v') :: setField rest k v

/-- Reading a key of an arbitrary JSON value: only objects have fields. -/
def Json.getField : Json → String → Option Json
  | Json.obj fields, k => lookupField fields k
  | _, _ => none

/-- Target card width at 300 DPI, src/etdx_generator.py line 18. -/
def TARGET_WIDTH : ℚ := 1016

/-- Target card height at 300 DPI, src/etdx_generator.py line 19. -/
def TARGET_HEIGHT : ℚ := 638

/-- Fixed normalized photo center, src/etdx_generator.py line 22. -/
def PHOTO_CENTER : List ℚ := [0.4488523602485657, 0.7050654292106628]

/-- Fixed crop rectangle, src/etdx_generator.py line 23. -/
def PHOTO_CROP_RECT : List ℚ := [0, 0, TARGET_WIDTH, TARGET_HEIGHT]

/-- Scale factor, src/etdx_generator.py lines 53-68: the function takes the
original pixel dimensions but returns the constant 1.2 (the documented
360/300 DPI correction) regardless of them. -/
def calculate_scale (original_width original_height : ℕ) : ℚ := 1.2

/-- Photo metadata object, src/etdx_generator.py lines 70-111
(create_photo_object).  Field order follows the source literal. -/
def create_photo_object (image_path : String) (workspace_number : ℤ)
    (original_size : ℕ × ℕ) : Json :=
  Json.obj
    [("angle", Json.num 0),
     ("center", Json.arr (PHOTO_CENTER.map Json.num)),
     ("effectInfo", Json.obj [("blur", Json.num 0), ("transparency", Json.num 0)]),
     ("originalsize", Json.arr [Json.num original_size.1, Json.num original_size.2]),
     ("zindex", Json.num 0),
     ("frameIndex", Json.num (-1)),
     ("imagePath", Json.str image_path),
     ("workSpaceNumber", Json.num workspace_number),
     ("apfInfo", Json.obj
       [("saturation", Json.num 0), ("brightness", Json.num 0),
        ("level", Json.num 5), ("contrast", Json.num 0),
        ("mode", Json.str "standard"), ("sharpness", Json.num 0)]),
     ("crop", Json.obj [("type", Json.num 1), ("rect", Json.arr (PHOTO_CROP_RECT.map Json.num))]),
     ("scale", Json.num (calculate_scale original_size.1 original_size.2))]

/-- Page document builder, src/etdx_generator.py lines 113-129
(create_page_info): deep-clone the loaded page template (json round trip,
the identity on the value) and assign its nested photos list,
`page_info["editedPaperSize"]["photos"] = photos`.  Python raises
(KeyError / TypeError) when the template is not an object holding an
object under "editedPaperSize"; that is the `none` result. -/
def create_page_info (page_template : Json) (photos : List Json) : Option Json :=
  match page_template with
  | Json.obj fields =>
    match lookupField fields "editedPaperSize" with
    | some (Json.obj eps) =>
      some (Json.obj (setField fields "editedPaperSize"
        (Json.obj (setField eps "photos" (Json.arr photos)))))
    | _ => none
  | _ => none

/-- One entry yielded by iterating the base template directory. -/
structure DirEntry where
  name : String
  isDir : Bool
deriving DecidableEq

/-- The on-disk base template as the loader sees it: `entries` is the list
of children of the template directory in the order `Path.iterdir` yields
them (pathlib documents this order as arbitrary, in particular not
necessarily sorted); `pageInfo n` is the parse of `n/_info.json`
and `projectInfo` the parse of `projectinfo.json`, `none` standing for a
missing or unparseable document. -/
structure TemplateSource where
  projectInfo : Option Json
  entries : List DirEntry
  pageInfo : String → Option Json

/-- Errors of the loader, src/etdx_generator.py lines 35-51: a missing or
malformed JSON document raises, and an explicit ValueError is raised when
no page directory exists. -/
inductive LoadError where
  | projectInfoError : LoadError
  | noPageTemplate : LoadError
  | pageInfoError : LoadError
deriving DecidableEq

/-- Candidate filter of the loader, src/etdx_generator.py lines 43-44: a
directory entry other than the reserved BaseData directory. -/
def isCandidate (e : DirEntry) : Bool := e.isDir && e.name != "BaseData"

/-- Template loader, src/etdx_generator.py lines 35-51 (load_base_template):
parse projectinfo.json, list the non-BaseData subdirectories in iterdir
order, fail when there are none, else parse the first one's _info.json. -/
def load_base_template (src : TemplateSource) : Except LoadError (Json × Json) :=
  match src.projectInfo with
  | none => Except.error LoadError.projectInfoError
  | some pi =>
    match src.entries.filter isCandidate with
    | [] => Except.error LoadError.noPageTemplate
    | d :: _ =>
      match src.pageInfo d.name with
      | none => Except.error LoadError.pageInfoError
      | some pt => Except.ok (pi, pt)

/-- The first candidate subdirectory in enumeration order (what the code
takes, head of the filtered iterdir listing). -/
def firstCandidate (src : TemplateSource) : Option DirEntry :=
  src.entries.find? isCandidate

/-- Page descriptor of the first candidate in enumeration order. -/
def firstCandidateInfo (src : TemplateSource) : Option Json :=
  match firstCandidate src with
  | some d => src.pageInfo d.name
  | none => none

/-- Lexicographic comparison of names by code point, the order a sorted
directory listing would use. -/
def charsLtb : List Char → List Char → Bool
  | [], [] => false
  | [], _ :: _ => true
  | _ :: _, [] => false
  | c :: cs, d :: ds =>
    if c.toNat < d.toNat then true
    else if d.toNat < c.toNat then false
    else charsLtb cs ds

/-- Lexically smallest name of a list. -/
def lexMinName (l : List String) : Option String :=
  match l with
  | [] => none
  | x :: rest => some (rest.foldl (fun m s => if charsLtb s.data m.data then s else m) x)

/-- Modelled from the spec: the page descriptor of the first non-reserved
subdirectory by lexical order of names, which the specification asserts the
loader selects.  Used only to compare the claimed selection rule with the
code's actual one. -/
def lexicalFirstCandidateInfo (src : TemplateSource) : Option Json :=
  match lexMinName ((src.entries.filter isCandidate).map DirEntry.name) with
  | some n => src.pageInfo n
  | none => none

/-- Did the loader fail? -/
def loadErrored (src : TemplateSource) : Bool :=
  match load_base_template src with
  | Except.error _ => true
  | Except.ok _ => false

/-- Padding step of the driver, src/main.py lines 282-297 (convert_process):
when the image count is not a multiple of 4, clone the last two images
cyclically to complete the final group of 4; with fewer than two images the
run reports an error and the batch driver is never invoked (the `none`
result). -/
def padImages (image_paths : List String) : Option (List String) :=
  let remainder := image_paths.length % 4
  if remainder ≠ 0 then
    let padding_needed := 4 - remainder
    if 2 ≤ image_paths.length then
      let last2 := image_paths.drop (image_paths.length - 2)
      let padding_images := (List.replicate ((padding_needed + 1) / 2) last2).flatten
      some (image_paths ++ padding_images.take padding_needed)
    else none
  else some image_paths

/-- A filesystem path as its list of components. -/
abbrev FilePath' := List String

/-- The filesystem as the list of paths (directories and files) that
currently exist. -/
abbrev FS := List FilePath'

/-- Characters of the final path component: scanning left to right, a
separator discards what was collected so far. -/
def basenameAux (cur : List Char) : List Char → List Char
  | [] => cur
  | c :: cs => if c = '/' then basenameAux [] cs else basenameAux (cur ++ [c]) cs

/-- Python `Path(p).name`: the final path component (the model covers the
separator-free file names the driver hands over; pathlib edge cases such
as trailing separators do not occur in those inputs). -/
def basename (s : String) : String := String.mk (basenameAux [] s.data)

/-- Errors a packaging run can raise, following the specification's
taxonomy for the exceptions of src/etdx_generator.py: the explicit
ValueError of the length check (line 141-142), a PIL failure opening an
image (lines 170-177), an OSError of a copy / write / zip operation, and
the KeyError raised when the loaded page template lacks the
editedPaperSize object (line 127). -/
inductive GenError where
  | validationError : GenError
  | imageReadError : GenError
  | ioError : GenError
  | structureError : GenError
deriving DecidableEq

/-- The loaded generator state, src/etdx_generator.py lines 25-51: the two
parsed template documents plus the relative paths of the files inside the
BaseData support directory (copied verbatim by line 162). -/
structure Generator where
  project_info : Json
  page_template : Json
  baseDataFiles : List (List String)

/-- The six identifiers minted for one unit, src/etdx_generator.py lines
152-158; uuid4 values are modelled as an input, with distinctness a
hypothesis where a claim needs it. -/
structure UuidSupply where
  front_page_uuid : String
  back_page_uuid : String
  front1_img_uuid : String
  front2_img_uuid : String
  back1_img_uuid : String
  back2_img_uuid : String

/-- One fallible operation of a packaging run.  `fsAdd` creates one
filesystem entry (mkdir, copy, or open-for-write), `fsAddMany` is the
recursive BaseData copy, `readImage` probes an image's size and creates
nothing, `writeJson` serializes a page document (failing when the document
could not be assembled), and `zipAdd` writes one member into the already
created archive file, changing no filesystem entry. -/
inductive Op where
  | fsAdd (p : FilePath') : Op
  | fsAddMany (ps : List FilePath') : Op
  | readImage (src : String) : Op
  | writeJson (p : FilePath') (content : Option Json) : Op
  | zipAdd (p : FilePath') : Op

/-- The filesystem entries an operation creates when it succeeds. -/
def Op.adds : Op → List FilePath'
  | Op.fsAdd p => [p]
  | Op.fsAddMany ps => ps
  | Op.readImage _ => []
  | Op.writeJson p _ => [p]
  | Op.zipAdd _ => []

/-- Interpreter for an operation list: operations run in order; `sizes`
is the image prober (none = unreadable or undecodable, raising
ImageReadError); `failAt = some j` injects one I/O failure at operation
index `j`, which raises IOError before the operation takes effect; the
first raised error aborts the remaining operations, as an exception leaves
the rest of the try block unexecuted. -/
def execOps (sizes : String → Option (ℕ × ℕ)) (failAt : Option ℕ) :
    List Op → ℕ → FS → Option GenError × FS
  | [], _, fs => (none, fs)
  | op :: rest, k, fs =>
    if failAt = some k then (some GenError.ioError, fs)
    else
      match op with
      | Op.fsAdd p => execOps sizes failAt rest (k + 1) (p :: fs)
      | Op.fsAddMany ps => execOps sizes failAt rest (k + 1) (ps ++ fs)
      | Op.readImage src =>
        match sizes src with
        | none => (some GenError.imageReadError, fs)
        | some _ => execOps sizes failAt rest (k + 1) fs
      | Op.writeJson p content =>
        match content with
        | none => (some GenError.structureError, fs)
        | some _ => execOps sizes failAt rest (k + 1) (p :: fs)
      | Op.zipAdd _ => execOps sizes failAt rest (k + 1) fs

/-- Scratch directory for one unit, src/etdx_generator.py line 147:
`Path(output_path) / ("_temp_" + template_name)`. -/
def tempDirOf (output_path template_name : String) : FilePath' :=
  [output_path, "_temp_" ++ template_name]

/-- Archive path for one unit, src/etdx_generator.py line 248:
`Path(output_path) / (template_name + ".etdx")`. -/
def etdxPathOf (output_path template_name : String) : FilePath' :=
  [output_path, template_name ++ ".etdx"]

/-- Front page photo list, src/etdx_generator.py lines 195-206: the first
front image in workspace slot 1, the second in slot 2, each under its own
image identifier directory keeping its original filename. -/
def frontPhotosOf (u : UuidSupply) (front1_path front2_path : String)
    (front1_size front2_size : ℕ × ℕ) : List Json :=
  [create_photo_object (u.front1_img_uuid ++ "/" ++ basename front1_path) 1 front1_size,
   create_photo_object (u.front2_img_uuid ++ "/" ++ basename front2_path) 2 front2_size]

/-- Back page photo list, src/etdx_generator.py lines 229-240. -/
def backPhotosOf (u : UuidSupply) (back1_path back2_path : String)
    (back1_size back2_size : ℕ × ℕ) : List Json :=
  [create_photo_object (u.back1_img_uuid ++ "/" ++ basename back1_path) 1 back1_size,
   create_photo_object (u.back2_img_uuid ++ "/" ++ basename back2_path) 2 back2_size]

/-- The four archive members holding the staged images, relative to the
scratch root (the copies of src/etdx_generator.py lines 187, 192, 221,
226). -/
def imageMembersOf (u : UuidSupply) (front1_path back1_path front2_path back2_path : String) :
    List FilePath' :=
  [[u.front_page_uuid, u.front1_img_uuid, basename front1_path],
   [u.front_page_uuid, u.front2_img_uuid, basename front2_path],
   [u.back_page_uuid, u.back1_img_uuid, basename back1_path],
   [u.back_page_uuid, u.back2_img_uuid, basename back2_path]]

/-- All archive members: the ZIP of src/etdx_generator.py lines 249-254
walks the scratch tree and stores every file relative to the scratch root,
so the members are exactly the files the run staged (the enumeration order
of os.walk is filesystem dependent and not modelled; this list fixes one
order). -/
def membersOf (gen : Generator) (u : UuidSupply)
    (front1_path back1_path front2_path back2_path : String) : List FilePath' :=
  [["projectinfo.json"], ["page.json"]]
    ++ gen.baseDataFiles.map (fun f => "BaseData" :: f)
    ++ [[u.front_page_uuid, "_info.json"], [u.back_page_uuid, "_info.json"]]
    ++ imageMembersOf u front1_path back1_path front2_path back2_path

/-- The staging operations of one run in source order (src/etdx_generator.py
lines 161-245): copy projectinfo.json (161), copy the BaseData tree (162),
write page.json (164-167), probe the four image sizes in source order
front1, front2, back1, back2 (170-177), create the front page directory,
its two image directories and copies, and its _info.json (180-211), then
the same for the back page (214-245). -/
def stageOps (gen : Generator) (u : UuidSupply)
    (front1_path back1_path front2_path back2_path : String)
    (front_page_info back_page_info : Option Json) (temp_dir : FilePath') : List Op :=
  [Op.fsAdd (temp_dir ++ ["projectinfo.json"]),
   Op.fsAddMany ((temp_dir ++ ["BaseData"]) ::
     gen.baseDataFiles.map (fun f => temp_dir ++ ("BaseData" :: f))),
   Op.fsAdd (temp_dir ++ ["page.json"]),
   Op.readImage front1_path,
   Op.readImage front2_path,
   Op.readImage back1_path,
   Op.readImage back2_path,
   Op.fsAdd (temp_dir ++ [u.front_page_uuid]),
   Op.fsAdd (temp_dir ++ [u.front_page_uuid, u.front1_img_uuid]),
   Op.fsAdd (temp_dir ++ [u.front_page_uuid, u.front1_img_uuid, basename front1_path]),
   Op.fsAdd (temp_dir ++ [u.front_page_uuid, u.front2_img_uuid]),
   Op.fsAdd (temp_dir ++ [u.front_page_uuid, u.front2_img_uuid, basename front2_path]),
   Op.writeJson (temp_dir ++ [u.front_page_uuid, "_info.json"]) front_page_info,
   Op.fsAdd (temp_dir ++ [u.back_page_uuid]),
   Op.fsAdd (temp_dir ++ [u.back_page_uuid, u.back1_img_uuid]),
   Op.fsAdd (temp_dir ++ [u.back_page_uuid, u.back1_img_uuid, basename back1_path]),
   Op.fsAdd (temp_dir ++ [u.back_page_uuid, u.back2_img_uuid]),
   Op.fsAdd (temp_dir ++ [u.back_page_uuid, u.back2_img_uuid, basename back2_path]),
   Op.writeJson (temp_dir ++ [u.back_page_uuid, "_info.json"]) back_page_info]

/-- Number of staging operations: the archive file is created by operation
index 19 (opening the ZIP for writing creates the file on disk), and the
member writes follow it. -/
def zipOpenIndex : ℕ := 19

/-- The staging operations of one run with the page documents and sizes
filled in from the run's inputs (src/etdx_generator.py lines 161-245). -/
def unitStageOps (gen : Generator) (u : UuidSupply)
    (sizes : String → Option (ℕ × ℕ))
    (front1_path back1_path front2_path back2_path out name : String) : List Op :=
  stageOps gen u front1_path back1_path front2_path back2_path
    (create_page_info gen.page_template
      (frontPhotosOf u front1_path front2_path
        ((sizes front1_path).getD (0, 0)) ((sizes front2_path).getD (0, 0))))
    (create_page_info gen.page_template
      (backPhotosOf u back1_path back2_path
        ((sizes back1_path).getD (0, 0)) ((sizes back2_path).getD (0, 0))))
    (tempDirOf out name)

/-- The full fallible-operation list of one run: staging, then creation of
the archive file by opening the ZIP for writing (src/etdx_generator.py
line 249, the operation at index zipOpenIndex), then one member write per
staged file (lines 250-254). -/
def unitOps (gen : Generator) (u : UuidSupply) (sizes : String → Option (ℕ × ℕ))
    (front1_path back1_path front2_path back2_path out name : String) : List Op :=
  unitStageOps gen u sizes front1_path back1_path front2_path back2_path out name
  ++ [Op.fsAdd (etdxPathOf out name)]
  ++ (membersOf gen u front1_path back1_path front2_path back2_path).map Op.zipAdd

/-- What a successful run hands back. -/
structure UnitOutput where
  etdx_path : FilePath'
  front_page_info : Json
  back_page_info : Json
  members : List FilePath'
  image_members : List FilePath'

/-- One unit packaging run, src/etdx_generator.py lines 131-261
(generate_etdx).  Control flow of the source: the length-4 check precedes
every filesystem effect (141-142); the scratch directory is created
(147-148); the try block stages all files and then creates the archive
file and writes every staged file into it (150-256); the finally block
removes the scratch directory and its contents on every exit path
(258-261).  An I/O failure during the member writes (after the archive
file was created by opening the ZIP) leaves the partially written archive
file in place: nothing in the source removes it. -/
def generate_etdx (gen : Generator) (u : UuidSupply)
    (sizes : String → Option (ℕ × ℕ)) (failAt : Option ℕ)
    (image_pairs : List String) (output_path template_name : String)
    (fs₀ : FS) : Except GenError UnitOutput × FS :=
  match image_pairs with
  | [front1_path, back1_path, front2_path, back2_path] =>
    let temp_dir := tempDirOf output_path template_name
    let fs₁ : FS := temp_dir :: fs₀
    let front1_size := (sizes front1_path).getD (0, 0)
    let front2_size := (sizes front2_path).getD (0, 0)
    let back1_size := (sizes back1_path).getD (0, 0)
    let back2_size := (sizes back2_path).getD (0, 0)
    let front_page_info := create_page_info gen.page_template
      (frontPhotosOf u front1_path front2_path front1_size front2_size)
    let back_page_info := create_page_info gen.page_template
      (backPhotosOf u back1_path back2_path back1_size back2_size)
    let etdx_path := etdxPathOf output_path template_name
    let members := membersOf gen u front1_path back1_path front2_path back2_path
    let ops : List Op :=
      unitOps gen u sizes front1_path back1_path front2_path back2_path
        output_path template_name
    let res := execOps sizes failAt ops 0 fs₁
    let fs' := res.2.filter (fun q => !(temp_dir.isPrefixOf q))
    (match res.1 with
     | some e => Except.error e
     | none => Except.ok
       { etdx_path := etdx_path,
         front_page_info := front_page_info.getD Json.null,
         back_page_info := back_page_info.getD Json.null,
         members := members,
         image_members := imageMembersOf u front1_path back1_path front2_path back2_path },
     fs')
  | _ => (Except.error GenError.validationError, fs₀)

/-- What the batch driver does for the group starting at source index 4*i:
the unit name it passes (src/etdx_generator.py lines 283-284), the slice
of the input it passes (line 286), and the archive path generate_etdx
returns for that unit (lines 248 and 256, a function of output_dir and the
unit name alone). -/
structure UnitCall where
  template_name : String
  group : List String
  etdx_path : FilePath'
deriving DecidableEq

/-- Batch driver, src/etdx_generator.py lines 263-290 (batch_generate):
reject a count that is not a multiple of 4 before any unit runs, else loop
`for i in range(0, len, 4)` invoking the unit packager on slice [i, i+4)
with unit name base_name followed by i/4 + 1, collecting the returned
archive paths in loop order.  The per-unit filesystem behaviour and
failures are modelled by `generate_etdx` above; here each iteration is
recorded as the `UnitCall` it performs. -/
def batch_generate (pdf_images : List String) (output_dir base_name : String) :
    Except GenError (List UnitCall) :=
  if pdf_images.length % 4 ≠ 0 then Except.error GenError.validationError
  else Except.ok ((List.range ((pdf_images.length + 3) / 4)).map (fun i =>
    { template_name := base_name ++ toString (i + 1),
      group := (pdf_images.drop (4 * i)).take 4,
      etdx_path := [output_dir, base_name ++ toString (i + 1) ++ ".etdx"] }))

/-- Archive paths a batch run returns. -/
def resultUnits (r : Except GenError (List UnitCall)) : List UnitCall :=
  match r with
  | Except.ok l => l
  | Except.error _ => []

/-- Did a batch run succeed? -/
def batchIsOk (r : Except GenError (List UnitCall)) : Bool :=
  match r with
  | Except.ok _ => true
  | Except.error _ => false

/-- The i-th unit call of a batch result. -/
def unitAt (r : Except GenError (List UnitCall)) (i : ℕ) : UnitCall :=
  (resultUnits r).getD i { template_name := "", group := [], etdx_path := [] }

/-- The photos list stored under editedPaperSize of a page document. -/
def pagePhotos (j : Json) : Option Json :=
  match j.getField "editedPaperSize" with
  | some e => e.getField "photos"
  | none => none

/-- Did a unit run succeed? -/
def genIsOk (r : Except GenError UnitOutput × FS) : Bool :=
  match r.1 with
  | Except.ok _ => true
  | Except.error _ => false

/-- Front page photos of a unit result. -/
def resultFrontPhotos (r : Except GenError UnitOutput × FS) : Option Json :=
  match r.1 with
  | Except.ok o => pagePhotos o.front_page_info
  | Except.error _ => none

/-- Back page photos of a unit result. -/
def resultBackPhotos (r : Except GenError UnitOutput × FS) : Option Json :=
  match r.1 with
  | Except.ok o => pagePhotos o.back_page_info
  | Except.error _ => none

/-- Archive members of a unit result. -/
def resultMembers (r : Except GenError UnitOutput × FS) : List FilePath' :=
  match r.1 with
  | Except.ok o => o.members
  | Except.error _ => []

/-- Image-file archive members of a unit result. -/
def resultImageMembers (r : Except GenError UnitOutput × FS) : List FilePath' :=
  match r.1 with
  | Except.ok o => o.image_members
  | Except.error _ => []

/-- Total number of photo records across the two page documents of a unit
result. -/
def resultPhotoCount (r : Except GenError UnitOutput × FS) : ℕ :=
  match resultFrontPhotos r, resultBackPhotos r with
  | some (Json.arr xs), some (Json.arr ys) => xs.length + ys.length
  | _, _ => 0

/-- Concrete page skeleton interior used by witnesses and counterexamples. -/
def sampleEps : List (String × Json) :=
  [("photos", Json.arr []), ("paperWidth", Json.num 100)]

/-- Concrete page skeleton fields used by witnesses and counterexamples. -/
def sampleFields : List (String × Json) :=
  [("editedPaperSize", Json.obj sampleEps), ("paperName", Json.str "card")]

/-- Concrete loaded generator used by witnesses and counterexamples. -/
def sampleGen : Generator :=
  { project_info := Json.null,
    page_template := Json.obj sampleFields,
    baseDataFiles := [["print.dat"]] }

/-- Concrete identifier supply (six distinct identifiers). -/
def sampleUuids : UuidSupply :=
  { front_page_uuid := "P1", back_page_uuid := "P2",
    front1_img_uuid := "I1", front2_img_uuid := "I2",
    back1_img_uuid := "I3", back2_img_uuid := "I4" }

/-- Image prober that reads every file at the card size. -/
def sampleSizes : String → Option (ℕ × ℕ) := fun _ => some (1016, 638)

/-- Image prober giving each of four named files a distinct size. -/
def sizesByName : String → Option (ℕ × ℕ) := fun s =>
  if s = "a.png" then some (10, 10)
  else if s = "b.png" then some (20, 20)
  else if s = "c.png" then some (30, 30)
  else if s = "d.png" then some (40, 40)
  else none

/-- Template directory whose iterdir enumeration is not lexically sorted:
it yields B before A, both candidate page directories. -/
def cexSrc : TemplateSource :=
  { projectInfo := some Json.null,
    entries := [{ name := "B", isDir := true }, { name := "A", isDir := true }],
    pageInfo := fun n =>
      if n = "A" then some (Json.str "pageA")
      else if n = "B" then some (Json.str "pageB")
      else none }

/-! Helper lemmas. -/

theorem lookupField_setField_self (fs : List (String × Json)) (k : String) (v : Json) :
    lookupField (setField fs k v) k = some v := by
  induction fs with
  | nil => simp [setField, lookupField]
  | cons kv rest ih =>
    obtain ⟨k', v'⟩ := kv
    by_cases h : k' = k
    · subst h
      simp [setField, lookupField]
    · simp [setField, h, lookupField, ih]

theorem lookupField_setField_ne (fs : List (String × Json)) (k k' : String) (v : Json)
    (h : k' ≠ k) : lookupField (setField fs k v) k' = lookupField fs k' := by
  have h' : ¬ (k = k') := fun e => h (Eq.symm e)
  induction fs with
  | nil => simp [setField, lookupField, h']
  | cons kv rest ih =>
    obtain ⟨k₀, v₀⟩ := kv
    by_cases h₀ : k₀ = k
    · subst h₀
      simp [setField, lookupField, h']
    · by_cases h₁ : k₀ = k'
      · simp [setField, h₀, lookupField, h₁, h]
      · simp [setField, h₀, lookupField, h₁, ih]

theorem find?_eq_head_filter (l : List DirEntry) :
    l.find? isCandidate = (l.filter isCandidate).head? := by
  induction l with
  | nil => simp
  | cons e rest ih =>
    by_cases h : isCandidate e
    · simp [List.find?_cons, List.filter_cons, h]
    · simp only [List.find?_cons, List.filter_cons, h]
      simpa [h] using ih

theorem execOps_append (sizes : String → Option (ℕ × ℕ)) (failAt : Option ℕ)
    (l₁ l₂ : List Op) (k : ℕ) (fs : FS) :
    execOps sizes failAt (l₁ ++ l₂) k fs =
      match execOps sizes failAt l₁ k fs with
      | (some e, fs₁) => (some e, fs₁)
      | (none, fs₁) => execOps sizes failAt l₂ (k + l₁.length) fs₁ := by
  induction l₁ generalizing k fs with
  | nil => simp [execOps]
  | cons op rest ih =>
    have harith : k + 1 + rest.length = k + (rest.length + 1) := by omega
    by_cases hf : failAt = some k
    · cases op <;> simp [List.cons_append, execOps, hf]
    · cases op with
      | fsAdd q =>
        simp only [List.cons_append, execOps, if_neg hf, List.length_cons, List.append_eq]
        rw [ih, harith]
      | fsAddMany ps =>
        simp only [List.cons_append, execOps, if_neg hf, List.length_cons, List.append_eq]
        rw [ih, harith]
      | readImage src =>
        simp only [List.cons_append, execOps, if_neg hf, List.length_cons, List.append_eq]
        cases hsz : sizes src with
        | none => simp [hsz]
        | some s =>
          simp only [hsz]
          rw [ih, harith]
      | writeJson q c =>
        cases c with
        | none => simp [List.cons_append, execOps, if_neg hf]
        | some c' =>
          simp only [List.cons_append, execOps, if_neg hf, List.length_cons, List.append_eq]
          rw [ih, harith]
      | zipAdd q =>
        simp only [List.cons_append, execOps, if_neg hf, List.length_cons, List.append_eq]
        rw [ih, harith]

theorem execOps_append_fail (sizes : String → Option (ℕ × ℕ)) (failAt : Option ℕ)
    (l₁ l₂ : List Op) (k : ℕ) (fs : FS)
    (h : (execOps sizes failAt l₁ k fs).1.isSome = true) :
    execOps sizes failAt (l₁ ++ l₂) k fs = execOps sizes failAt l₁ k fs := by
  rw [execOps_append]
  rcases hr : execOps sizes failAt l₁ k fs with ⟨r1, r2⟩
  rw [hr] at h
  cases r1 with
  | none => simp at h
  | some e => rfl

theorem execOps_mem (sizes : String → Option (ℕ × ℕ)) (failAt : Option ℕ)
    (ops : List Op) (k : ℕ) (fs : FS) (p : FilePath') :
    p ∈ (execOps sizes failAt ops k fs).2 → p ∈ fs ∨ ∃ op ∈ ops, p ∈ op.adds := by
  induction ops generalizing k fs with
  | nil =>
    intro hp
    simp only [execOps] at hp
    exact Or.inl hp
  | cons op rest ih =>
    intro hp
    by_cases hf : failAt = some k
    · simp only [execOps, if_pos hf] at hp
      exact Or.inl hp
    · cases op with
      | fsAdd q =>
        simp only [execOps, if_neg hf] at hp
        rcases ih _ _ hp with h | ⟨o, ho, hpo⟩
        · rcases List.mem_cons.1 h with h | h
          · exact Or.inr ⟨Op.fsAdd q, by simp, by simp [Op.adds, h]⟩
          · exact Or.inl h
        · exact Or.inr ⟨o, by simp [ho], hpo⟩
      | fsAddMany ps =>
        simp only [execOps, if_neg hf] at hp
        rcases ih _ _ hp with h | ⟨o, ho, hpo⟩
        · rcases List.mem_append.1 h with h | h
          · exact Or.inr ⟨Op.fsAddMany ps, by simp, by simp [Op.adds, h]⟩
          · exact Or.inl h
        · exact Or.inr ⟨o, by simp [ho], hpo⟩
      | readImage src =>
        simp only [execOps, if_neg hf] at hp
        cases hsz : sizes src with
        | none =>
          simp only [hsz] at hp
          exact Or.inl hp
        | some s =>
          simp only [hsz] at hp
          rcases ih _ _ hp with h | ⟨o, ho, hpo⟩
          · exact Or.inl h
          · exact Or.inr ⟨o, by simp [ho], hpo⟩
      | writeJson q c =>
        cases c with
        | none =>
          simp only [execOps, if_neg hf] at hp
          exact Or.inl hp
        | some c' =>
          simp only [execOps, if_neg hf] at hp
          rcases ih _ _ hp with h | ⟨o, ho, hpo⟩
          · rcases List.mem_cons.1 h with h | h
            · exact Or.inr ⟨Op.writeJson q (some c'), by simp, by simp [Op.adds, h]⟩
            · exact Or.inl h
          · exact Or.inr ⟨o, by simp [ho], hpo⟩
      | zipAdd q =>
        simp only [execOps, if_neg hf] at hp
        rcases ih _ _ hp with h | ⟨o, ho, hpo⟩
        · exact Or.inl h
        · exact Or.inr ⟨o, by simp [ho], hpo⟩

theorem execOps_stops (sizes : String → Option (ℕ × ℕ)) (j : ℕ)
    (ops : List Op) (k : ℕ) (fs : FS) (h₁ : k ≤ j) (h₂ : j < k + ops.length) :
    (execOps sizes (some j) ops k fs).1.isSome = true := by
  induction ops generalizing k fs with
  | nil => simp at h₂; omega
  | cons op rest ih =>
    by_cases hf : j = k
    · cases op <;> simp [execOps, hf]
    · have hne : ¬ ((some j : Option ℕ) = some k) := by simp [hf]
      have hk : k + 1 ≤ j := by omega
      have hlt : j < (k + 1) + rest.length := by simp at h₂; omega
      cases op with
      | fsAdd q =>
        simp only [execOps, if_neg hne]
        exact ih _ _ hk hlt
      | fsAddMany ps =>
        simp only [execOps, if_neg hne]
        exact ih _ _ hk hlt
      | readImage src =>
        simp only [execOps, if_neg hne]
        cases hsz : sizes src with
        | none => simp [hsz]
        | some s =>
          simp only [hsz]
          exact ih _ _ hk hlt
      | writeJson q c =>
        cases c with
        | none => simp [execOps, hf]
        | some c' =>
          simp only [execOps, if_neg hne]
          exact ih _ _ hk hlt
      | zipAdd q =>
        simp only [execOps, if_neg hne]
        exact ih _ _ hk hlt

theorem execOps_bad_read (sizes : String → Option (ℕ × ℕ)) (failAt : Option ℕ)
    (src : String) (ops : List Op) (k : ℕ) (fs : FS) :
    Op.readImage src ∈ ops → sizes src = none →
    (execOps sizes failAt ops k fs).1.isSome = true := by
  induction ops generalizing k fs with
  | nil => intro hmem _; simp at hmem
  | cons op rest ih =>
    intro hmem hbad
    by_cases hf : failAt = some k
    · cases op <;> simp [execOps, hf]
    · rcases List.mem_cons.1 hmem with h | h
      · rw [← h]
        simp [execOps, if_neg hf, hbad]
      · cases op with
        | fsAdd q =>
          simp only [execOps, if_neg hf]
          exact ih _ _ h hbad
        | fsAddMany ps =>
          simp only [execOps, if_neg hf]
          exact ih _ _ h hbad
        | readImage src₂ =>
          simp only [execOps, if_neg hf]
          cases hsz : sizes src₂ with
          | none => simp [hsz]
          | some s =>
            simp only [hsz]
            exact ih _ _ h hbad
        | writeJson q c =>
          cases c with
          | none => simp [execOps, if_neg hf]
          | some c' =>
            simp only [execOps, if_neg hf]
            exact ih _ _ h hbad
        | zipAdd q =>
          simp only [execOps, if_neg hf]
          exact ih _ _ h hbad

theorem execOps_zipAdds (sizes : String → Option (ℕ × ℕ)) (l : List FilePath')
    (k : ℕ) (fs : FS) :
    execOps sizes none (l.map Op.zipAdd) k fs = (none, fs) := by
  induction l generalizing k with
  | nil => simp [execOps]
  | cons q rest ih => simp [execOps, ih]

theorem execOps_zip_comp_bridge {α : Type} (sizes : String → Option (ℕ × ℕ))
    (g : α → FilePath') (l : List α) (rest : List Op) (k : ℕ) (fs : FS) :
    execOps sizes none (List.map (Op.zipAdd ∘ g) l ++ rest) k fs =
      execOps sizes none rest (k + l.length) fs := by
  induction l generalizing k with
  | nil => simp
  | cons x xs ih =>
    have harith : k + 1 + xs.length = k + (xs.length + 1) := by omega
    simp only [List.map_cons, List.cons_append, execOps, Function.comp_apply,
      List.length_cons, List.append_eq]
    rw [if_neg (by simp), ih, harith]

theorem tempDir_ne_etdx (out name : String) :
    tempDirOf out name ≠ etdxPathOf out name := by
  intro h
  simp only [tempDirOf, etdxPathOf, List.cons.injEq, and_true] at h
  have h₂ := congrArg String.length h.2
  have l₁ : String.length "_temp_" = 6 := rfl
  have l₂ : String.length ".etdx" = 5 := rfl
  rw [String.length_append, String.length_append, l₁, l₂] at h₂
  omega

theorem stageOps_length (gen : Generator) (u : UuidSupply) (a b c d : String)
    (fpi bpi : Option Json) (td : FilePath') :
    (stageOps gen u a b c d fpi bpi td).length = 19 := rfl

theorem readImage_mem_stageOps (gen : Generator) (u : UuidSupply) (a b c d : String)
    (fpi bpi : Option Json) (td : FilePath') :
    Op.readImage a ∈ stageOps gen u a b c d fpi bpi td ∧
    Op.readImage b ∈ stageOps gen u a b c d fpi bpi td ∧
    Op.readImage c ∈ stageOps gen u a b c d fpi bpi td ∧
    Op.readImage d ∈ stageOps gen u a b c d fpi bpi td := by
  refine ⟨?_, ?_, ?_, ?_⟩ <;> simp [stageOps]

theorem stageOps_adds_three (gen : Generator) (u : UuidSupply) (a b c d : String)
    (fpi bpi : Option Json) (out name : String) (op : Op)
    (hop : op ∈ stageOps gen u a b c d fpi bpi (tempDirOf out name))
    (p : FilePath') (hp : p ∈ op.adds) : 3 ≤ p.length := by
  simp only [stageOps, List.mem_cons, List.not_mem_nil, or_false] at hop
  rcases hop with h|h|h|h|h|h|h|h|h|h|h|h|h|h|h|h|h|h|h <;> subst h <;>
    simp only [Op.adds, List.mem_singleton, List.mem_cons, List.mem_map,
      List.not_mem_nil, or_false] at hp
  all_goals
    first
      | (subst hp; simp [tempDirOf])
      | (rcases hp with hp | ⟨f, hf, hp⟩ <;> subst hp <;> simp [tempDirOf] <;> omega)

theorem generate_etdx_ok (gen : Generator) (u : UuidSupply)
    (sizes : String → Option (ℕ × ℕ)) (a b c d : String) (sa sb sc sd : ℕ × ℕ)
    (out name : String) (fs₀ : FS) (fields eps : List (String × Json))
    (ht : gen.page_template = Json.obj fields)
    (heps : lookupField fields "editedPaperSize" = some (Json.obj eps))
    (hsa : sizes a = some sa) (hsb : sizes b = some sb)
    (hsc : sizes c = some sc) (hsd : sizes d = some sd) :
    (generate_etdx gen u sizes none [a, b, c, d] out name fs₀).1 =
      Except.ok
        { etdx_path := etdxPathOf out name,
          front_page_info := Json.obj (setField fields "editedPaperSize"
            (Json.obj (setField eps "photos"
              (Json.arr (frontPhotosOf u a c sa sc))))),
          back_page_info := Json.obj (setField fields "editedPaperSize"
            (Json.obj (setField eps "photos"
              (Json.arr (backPhotosOf u b d sb sd))))),
          members := membersOf gen u a b c d,
          image_members := imageMembersOf u a b c d } := by
  have hfp : create_page_info gen.page_template (frontPhotosOf u a c sa sc) =
      some (Json.obj (setField fields "editedPaperSize"
        (Json.obj (setField eps "photos" (Json.arr (frontPhotosOf u a c sa sc)))))) := by
    rw [ht]
    simp [create_page_info, heps]
  have hbp : create_page_info gen.page_template (backPhotosOf u b d sb sd) =
      some (Json.obj (setField fields "editedPaperSize"
        (Json.obj (setField eps "photos" (Json.arr (backPhotosOf u b d sb sd)))))) := by
    rw [ht]
    simp [create_page_info, heps]
  simp [generate_etdx, unitOps, unitStageOps, stageOps, execOps,
    execOps_zip_comp_bridge, execOps_zipAdds, hsa, hsb, hsc, hsd, hfp, hbp]

/-! Claim theorems. -/

/-- C4: for every imagePath string, workspace slot and pixel size,
create_photo_object returns the record with exactly the documented keys
and fixed values — angle 0, the fixed center pair, crop of type 1 with
rect 0 0 1016 638, zindex 0, frameIndex -1, originalsize width then
height, the given imagePath and workSpaceNumber, the fixed effectInfo and
apfInfo defaults — and the scale is the constant 1.2 whatever the width
and height are. -/
theorem photo_record_fixed_shape (image_path : String) (workspace_number : ℤ)
    (width height : ℕ) :
    create_photo_object image_path workspace_number (width, height) =
      Json.obj
        [("angle", Json.num 0),
         ("center", Json.arr [Json.num 0.4488523602485657, Json.num 0.7050654292106628]),
         ("effectInfo", Json.obj [("blur", Json.num 0), ("transparency", Json.num 0)]),
         ("originalsize", Json.arr [Json.num width, Json.num height]),
         ("zindex", Json.num 0),
         ("frameIndex", Json.num (-1)),
         ("imagePath", Json.str image_path),
         ("workSpaceNumber", Json.num workspace_number),
         ("apfInfo", Json.obj
           [("saturation", Json.num 0), ("brightness", Json.num 0),
            ("level", Json.num 5), ("contrast", Json.num 0),
            ("mode", Json.str "standard"), ("sharpness", Json.num 0)]),
         ("crop", Json.obj [("type", Json.num 1),
           ("rect", Json.arr [Json.num 0, Json.num 0, Json.num 1016, Json.num 638])]),
         ("scale", Json.num 1.2)] ∧
    ∀ w₁ h₁ w₂ h₂ : ℕ, calculate_scale w₁ h₁ = calculate_scale w₂ h₂ :=
  ⟨rfl, fun _ _ _ _ => rfl⟩

/-- C7: for every record list, create_page_info returns the clone of the
page skeleton in which only the nested editedPaperSize.photos field is
replaced by the given records in order; the outer editedPaperSize object
keeps every other field, every other top-level field of the skeleton is
unchanged, and (values being immutable here) the stored skeleton itself is
untouched. -/
theorem page_info_replaces_only_photos (fields eps : List (String × Json))
    (photos : List Json)
    (h : lookupField fields "editedPaperSize" = some (Json.obj eps)) :
    create_page_info (Json.obj fields) photos =
      some (Json.obj (setField fields "editedPaperSize"
        (Json.obj (setField eps "photos" (Json.arr photos))))) ∧
    lookupField (setField fields "editedPaperSize"
      (Json.obj (setField eps "photos" (Json.arr photos)))) "editedPaperSize" =
      some (Json.obj (setField eps "photos" (Json.arr photos))) ∧
    (∀ k, k ≠ "editedPaperSize" →
      lookupField (setField fields "editedPaperSize"
        (Json.obj (setField eps "photos" (Json.arr photos)))) k = lookupField fields k) ∧
    lookupField (setField eps "photos" (Json.arr photos)) "photos" =
      some (Json.arr photos) ∧
    (∀ k, k ≠ "photos" →
      lookupField (setField eps "photos" (Json.arr photos)) k = lookupField eps k) := by
  refine ⟨by simp [create_page_info, h], lookupField_setField_self _ _ _,
    fun k hk => lookupField_setField_ne _ _ _ _ hk,
    lookupField_setField_self _ _ _,
    fun k hk => lookupField_setField_ne _ _ _ _ hk⟩

/-- C7 witness: the theorem applied to the sample skeleton and a
one-record list. -/
theorem page_info_replaces_only_photos_witness :
    lookupField sampleFields "editedPaperSize" = some (Json.obj sampleEps) ∧
    create_page_info (Json.obj sampleFields) [Json.null] =
      some (Json.obj (setField sampleFields "editedPaperSize"
        (Json.obj (setField sampleEps "photos" (Json.arr [Json.null]))))) ∧
    lookupField (setField sampleEps "photos" (Json.arr [Json.null])) "photos" =
      some (Json.arr [Json.null]) :=
  ⟨rfl, (page_info_replaces_only_photos sampleFields sampleEps [Json.null] rfl).1,
    (page_info_replaces_only_photos sampleFields sampleEps [Json.null] rfl).2.2.2.1⟩

/-- C9: a stream whose length is not a multiple of 4 and has at least two
images is extended to the next multiple of 4 by appending k images, k in
1..3, drawn in order from the cyclically repeated last two images; a
stream of fewer than two images is not padded and batching is not
attempted. -/
theorem padding_policy (l : List String) (h : l.length % 4 ≠ 0) :
    (2 ≤ l.length →
      padImages l = some (l ++
        (l.drop (l.length - 2) ++ l.drop (l.length - 2)).take (4 - l.length % 4)) ∧
      (l ++ (l.drop (l.length - 2) ++ l.drop (l.length - 2)).take
          (4 - l.length % 4)).length = l.length + (4 - l.length % 4) ∧
      (l.length + (4 - l.length % 4)) % 4 = 0 ∧
      1 ≤ 4 - l.length % 4 ∧ 4 - l.length % 4 ≤ 3) ∧
    (l.length < 2 → padImages l = none) := by
  constructor
  · intro h2
    have hlast : (l.drop (l.length - 2)).length = 2 := by
      rw [List.length_drop]
      omega
    have hmod : l.length % 4 = 1 ∨ l.length % 4 = 2 ∨ l.length % 4 = 3 := by omega
    have htake : ((l.drop (l.length - 2) ++ l.drop (l.length - 2)).take
        (4 - l.length % 4)).length = 4 - l.length % 4 := by
      rw [List.length_take, List.length_append, hlast]
      omega
    have key : ((List.replicate ((4 - l.length % 4 + 1) / 2)
          (l.drop (l.length - 2))).flatten).take (4 - l.length % 4) =
        (l.drop (l.length - 2) ++ l.drop (l.length - 2)).take (4 - l.length % 4) := by
      rcases hmod with hm | hm | hm
      · rw [hm]
        have e1 : (4 - 1 + 1) / 2 = 2 := rfl
        rw [e1]
        have hfl : (List.replicate 2 (l.drop (l.length - 2))).flatten =
            l.drop (l.length - 2) ++ l.drop (l.length - 2) := by
          simp [List.replicate]
        rw [hfl]
      · rw [hm]
        have e1 : (4 - 2 + 1) / 2 = 1 := rfl
        have e2 : 4 - 2 = 2 := rfl
        rw [e1, e2]
        have hfl : (List.replicate 1 (l.drop (l.length - 2))).flatten =
            l.drop (l.length - 2) := by simp
        rw [hfl, List.take_append_of_le_length (le_of_eq hlast.symm)]
      · rw [hm]
        have e1 : (4 - 3 + 1) / 2 = 1 := rfl
        have e2 : 4 - 3 = 1 := rfl
        rw [e1, e2]
        have hfl : (List.replicate 1 (l.drop (l.length - 2))).flatten =
            l.drop (l.length - 2) := by simp
        rw [hfl, List.take_append_of_le_length (by omega)]
    refine ⟨?_, by rw [List.length_append, htake], by omega, by omega, by omega⟩
    simp only [padImages]
    rw [if_pos h, if_pos h2, key]
  · intro hlt
    simp only [padImages]
    rw [if_pos h, if_neg (by omega)]

/-- C9 witness: a six-image stream is padded with its last two images to
eight; a one-image stream is rejected without padding. -/
theorem padding_policy_witness :
    (["a", "b", "c", "d", "e", "f"] : List String).length % 4 ≠ 0 ∧
    2 ≤ (["a", "b", "c", "d", "e", "f"] : List String).length ∧
    padImages ["a", "b", "c", "d", "e", "f"] =
      some ["a", "b", "c", "d", "e", "f", "e", "f"] ∧
    (["g"] : List String).length % 4 ≠ 0 ∧
    (["g"] : List String).length < 2 ∧
    padImages ["g"] = none := by
  refine ⟨by decide, by decide, ?_, by decide, by decide, ?_⟩
  · have h := (padding_policy ["a", "b", "c", "d", "e", "f"] (by decide)).1 (by decide)
    simpa using h.1
  · exact (padding_policy ["g"] (by decide)).2 (by decide)

/-- C8: wrong image counts are rejected before any filesystem mutation:
generate_etdx on a list whose length is not 4 raises the validation error
with the filesystem unchanged — no scratch directory, no archive — and
batch_generate on a list whose length is not a multiple of 4 raises the
validation error before invoking any unit. -/
theorem validation_rejects_wrong_counts (gen : Generator) (u : UuidSupply)
    (sizes : String → Option (ℕ × ℕ)) (failAt : Option ℕ)
    (images : List String) (output_path template_name : String) (fs₀ : FS)
    (images₂ : List String) (output_dir base_name : String)
    (h1 : images.length ≠ 4) (h2 : images₂.length % 4 ≠ 0) :
    generate_etdx gen u sizes failAt images output_path template_name fs₀ =
      (Except.error GenError.validationError, fs₀) ∧
    batch_generate images₂ output_dir base_name =
      Except.error GenError.validationError := by
  constructor
  · rcases images with _ | ⟨a, _ | ⟨b, _ | ⟨c, _ | ⟨d, _ | ⟨e, rest⟩⟩⟩⟩⟩
    · rfl
    · rfl
    · rfl
    · rfl
    · simp at h1
    · rfl
  · simp [batch_generate, h2]

/-- C8 witness: a three-image unit call and a six-image batch are both
rejected with the validation error and no effect. -/
theorem validation_rejects_wrong_counts_witness :
    (["a", "b", "c"] : List String).length ≠ 4 ∧
    (["a", "b", "c", "d", "e", "f"] : List String).length % 4 ≠ 0 ∧
    generate_etdx sampleGen sampleUuids sampleSizes none ["a", "b", "c"]
      "out" "kay1" [] = (Except.error GenError.validationError, ([] : FS)) ∧
    batch_generate ["a", "b", "c", "d", "e", "f"] "out" "kay" =
      Except.error GenError.validationError :=
  ⟨by decide, by decide,
    (validation_rejects_wrong_counts sampleGen sampleUuids sampleSizes none
      ["a", "b", "c"] "out" "kay1" [] ["a", "b", "c", "d", "e", "f"] "out" "kay"
      (by decide) (by decide)).1,
    (validation_rejects_wrong_counts sampleGen sampleUuids sampleSizes none
      ["a", "b", "c"] "out" "kay1" [] ["a", "b", "c", "d", "e", "f"] "out" "kay"
      (by decide) (by decide)).2⟩

/-- C2: every run on a four-image list — the runs that create the scratch
directory — ends with no filesystem entry at or under the scratch
directory, for every injected I/O failure, every behaviour of the image
prober, and on the success path as well: the finally block removes the
scratch tree on every exit path. -/
theorem scratch_dir_always_removed (gen : Generator) (u : UuidSupply)
    (sizes : String → Option (ℕ × ℕ)) (failAt : Option ℕ)
    (a b c d output_path template_name : String) (fs₀ : FS) :
    ((generate_etdx gen u sizes failAt [a, b, c, d] output_path template_name
      fs₀).2.all
        (fun q => !((tempDirOf output_path template_name).isPrefixOf q))) = true := by
  rw [List.all_eq_true]
  intro q hq
  simp only [generate_etdx] at hq
  exact (List.mem_filter.1 hq).2

/-- C1: a batch whose length is a positive multiple of 4 produces exactly
N / 4 unit calls in group order; the 0-based group i is run under unit
name base_name followed by i+1, its archive path is output_dir slash that
name with the etdx suffix, and it is built from exactly the input images
at indices 4i up to 4i+4. -/
theorem batch_groups_and_names (images : List String) (output_dir base_name : String)
    (h4 : images.length % 4 = 0) (hpos : 0 < images.length) :
    batchIsOk (batch_generate images output_dir base_name) = true ∧
    (resultUnits (batch_generate images output_dir base_name)).length =
      images.length / 4 ∧
    ∀ i, i < images.length / 4 →
      unitAt (batch_generate images output_dir base_name) i =
        { template_name := base_name ++ toString (i + 1),
          group := (images.drop (4 * i)).take 4,
          etdx_path := [output_dir, base_name ++ toString (i + 1) ++ ".etdx"] } ∧
      ((images.drop (4 * i)).take 4).length = 4 := by
  have hne : ¬ (images.length % 4 ≠ 0) := by simpa using h4
  refine ⟨by simp [batchIsOk, batch_generate, hne], ?_, ?_⟩
  · simp only [resultUnits, batch_generate, if_neg hne]
    simp only [List.length_map, List.length_range]
    omega
  · intro i hi
    have hilt : i < (images.length + 3) / 4 := by omega
    constructor
    · simp only [unitAt, resultUnits, batch_generate, if_neg hne]
      rw [List.getD_eq_getElem?_getD]
      simp [List.getElem?_map, List.getElem?_range, hilt]
    · simp only [List.length_take, List.length_drop]
      omega

/-- C1 witness: eight images yield two archives kay1.etdx and kay2.etdx in
the output directory, built from the first and second four images. -/
theorem batch_groups_and_names_witness :
    (["a", "b", "c", "d", "e", "f", "g", "h"] : List String).length % 4 = 0 ∧
    0 < (["a", "b", "c", "d", "e", "f", "g", "h"] : List String).length ∧
    batchIsOk (batch_generate ["a", "b", "c", "d", "e", "f", "g", "h"]
      "out" "kay") = true ∧
    (resultUnits (batch_generate ["a", "b", "c", "d", "e", "f", "g", "h"]
      "out" "kay")).length = 2 ∧
    unitAt (batch_generate ["a", "b", "c", "d", "e", "f", "g", "h"] "out" "kay") 0 =
      { template_name := "kay1", group := ["a", "b", "c", "d"],
        etdx_path := ["out", "kay1.etdx"] } ∧
    unitAt (batch_generate ["a", "b", "c", "d", "e", "f", "g", "h"] "out" "kay") 1 =
      { template_name := "kay2", group := ["e", "f", "g", "h"],
        etdx_path := ["out", "kay2.etdx"] } := by
  have h := batch_groups_and_names ["a", "b", "c", "d", "e", "f", "g", "h"]
    "out" "kay" (by decide) (by decide)
  refine ⟨by decide, by decide, h.1, ?_, ?_, ?_⟩
  · simpa using h.2.1
  · simpa using (h.2.2 0 (by decide)).1
  · simpa using (h.2.2 1 (by decide)).1

/-- C5 counterexample: a template directory whose iterdir enumeration
yields candidate B before candidate A.  The loader returns B's page
descriptor although the lexically first candidate is A with a different
descriptor, so the selection is by enumeration position, not by lexical
order as claimed. -/
theorem loader_not_lexical_cex :
    load_base_template cexSrc = Except.ok (Json.null, Json.str "pageB") ∧
    lexicalFirstCandidateInfo cexSrc = some (Json.str "pageA") ∧
    Json.str "pageB" ≠ Json.str "pageA" := by
  refine ⟨rfl, rfl, ?_⟩
  intro hcontra
  have hs : "pageB" = "pageA" := by injection hcontra
  exact absurd hs (by decide)

/-- C5 amended: the loader selects the page descriptor of the first
non-BaseData subdirectory in directory-enumeration (iterdir) order — which
need not be the lexically first — and it fails exactly when projectinfo is
missing or malformed, when no candidate subdirectory exists, or when the
chosen page descriptor is missing or malformed. -/
theorem loader_first_in_enumeration (src : TemplateSource) :
    (∀ pi pt, load_base_template src = Except.ok (pi, pt) →
      src.projectInfo = some pi ∧ firstCandidateInfo src = some pt) ∧
    (loadErrored src = true ↔
      (src.projectInfo = none ∨ firstCandidateInfo src = none)) := by
  have hfc : firstCandidate src = (src.entries.filter isCandidate).head? :=
    find?_eq_head_filter src.entries
  constructor
  · intro pi pt hok
    cases hpi : src.projectInfo with
    | none => simp [load_base_template, hpi] at hok
    | some pj =>
      cases hfil : src.entries.filter isCandidate with
      | nil => simp [load_base_template, hpi, hfil] at hok
      | cons dd rest =>
        cases hpg : src.pageInfo dd.name with
        | none => simp [load_base_template, hpi, hfil, hpg] at hok
        | some pg =>
          simp only [load_base_template, hpi, hfil, hpg, Except.ok.injEq,
            Prod.mk.injEq] at hok
          obtain ⟨h₁, h₂⟩ := hok
          subst h₁
          subst h₂
          exact ⟨rfl, by simp [firstCandidateInfo, hfc, hfil, hpg]⟩
  · cases hpi : src.projectInfo with
    | none => simp [loadErrored, load_base_template, hpi]
    | some pj =>
      cases hfil : src.entries.filter isCandidate with
      | nil =>
        simp [loadErrored, load_base_template, hpi, hfil, firstCandidateInfo, hfc]
      | cons dd rest =>
        cases hpg : src.pageInfo dd.name with
        | none =>
          simp [loadErrored, load_base_template, hpi, hfil, hpg,
            firstCandidateInfo, hfc]
        | some pg =>
          simp [loadErrored, load_base_template, hpi, hfil, hpg,
            firstCandidateInfo, hfc]

/-- C5 amended witness: on the concrete directory above the successful
load returns the parsed projectinfo and the first candidate's descriptor
in enumeration order. -/
theorem loader_first_in_enumeration_witness :
    cexSrc.projectInfo = some Json.null ∧
    firstCandidateInfo cexSrc = some (Json.str "pageB") :=
  (loader_first_in_enumeration cexSrc).1 Json.null (Json.str "pageB") rfl

/-- C3 amended: for a valid tuple (front1, back1, front2, back2) the front
page document holds the PhotoRecords of tuple images 1 and 3 — the two
designated front faces — with image 1 in workspace slot 1 and image 3 in
slot 2, and the back page holds those of tuple images 2 and 4 in slots 1
and 2. -/
theorem pages_pair_first_with_third (gen : Generator) (u : UuidSupply)
    (sizes : String → Option (ℕ × ℕ)) (a b c d : String) (sa sb sc sd : ℕ × ℕ)
    (out name : String) (fs₀ : FS) (fields eps : List (String × Json))
    (ht : gen.page_template = Json.obj fields)
    (heps : lookupField fields "editedPaperSize" = some (Json.obj eps))
    (hsa : sizes a = some sa) (hsb : sizes b = some sb)
    (hsc : sizes c = some sc) (hsd : sizes d = some sd) :
    genIsOk (generate_etdx gen u sizes none [a, b, c, d] out name fs₀) = true ∧
    resultFrontPhotos (generate_etdx gen u sizes none [a, b, c, d] out name fs₀) =
      some (Json.arr
        [create_photo_object (u.front1_img_uuid ++ "/" ++ basename a) 1 sa,
         create_photo_object (u.front2_img_uuid ++ "/" ++ basename c) 2 sc]) ∧
    resultBackPhotos (generate_etdx gen u sizes none [a, b, c, d] out name fs₀) =
      some (Json.arr
        [create_photo_object (u.back1_img_uuid ++ "/" ++ basename b) 1 sb,
         create_photo_object (u.back2_img_uuid ++ "/" ++ basename d) 2 sd]) := by
  have h := generate_etdx_ok gen u sizes a b c d sa sb sc sd out name fs₀ fields eps
    ht heps hsa hsb hsc hsd
  refine ⟨by simp [genIsOk, h], ?_, ?_⟩
  · simp [resultFrontPhotos, h, pagePhotos, Json.getField,
      lookupField_setField_self, frontPhotosOf]
  · simp [resultBackPhotos, h, pagePhotos, Json.getField,
      lookupField_setField_self, backPhotosOf]

/-- C3 amended witness: on a concrete valid tuple the front page pairs
a.png (slot 1) with c.png (slot 2). -/
theorem pages_pair_first_with_third_witness :
    sampleGen.page_template = Json.obj sampleFields ∧
    lookupField sampleFields "editedPaperSize" = some (Json.obj sampleEps) ∧
    sizesByName "a.png" = some (10, 10) ∧ sizesByName "b.png" = some (20, 20) ∧
    sizesByName "c.png" = some (30, 30) ∧ sizesByName "d.png" = some (40, 40) ∧
    resultFrontPhotos (generate_etdx sampleGen sampleUuids sizesByName none
        ["a.png", "b.png", "c.png", "d.png"] "out" "kay1" []) =
      some (Json.arr
        [create_photo_object ("I1" ++ "/" ++ basename "a.png") 1 (10, 10),
         create_photo_object ("I2" ++ "/" ++ basename "c.png") 2 (30, 30)]) := by
  refine ⟨rfl, rfl, rfl, rfl, rfl, rfl, ?_⟩
  exact (pages_pair_first_with_third sampleGen sampleUuids sizesByName
    "a.png" "b.png" "c.png" "d.png" (10, 10) (20, 20) (30, 30) (40, 40)
    "out" "kay1" [] sampleFields sampleEps rfl rfl rfl rfl rfl rfl).2.1

/-- C3 counterexample: with distinct probe sizes for the four tuple images
(a.png 10, b.png 20, c.png 30, d.png 40) the front page's records are those
of a.png and c.png — tuple images 1 and 3.  The slot-2 front record carries
c.png's path and size 30, while the record of tuple image 2 would carry
file name b.png and size 20, so the front page does not hold the records of
images 1 and 2 as claimed. -/
theorem front_page_pairing_cex :
    resultFrontPhotos (generate_etdx sampleGen sampleUuids sizesByName none
        ["a.png", "b.png", "c.png", "d.png"] "out" "kay1" []) =
      some (Json.arr
        [create_photo_object "I1/a.png" 1 (10, 10),
         create_photo_object "I2/c.png" 2 (30, 30)]) ∧
    Json.getField (create_photo_object "I1/a.png" 1 (10, 10)) "originalsize" =
      some (Json.arr [Json.num 10, Json.num 10]) ∧
    Json.getField (create_photo_object "I2/c.png" 2 (30, 30)) "originalsize" =
      some (Json.arr [Json.num 30, Json.num 30]) ∧
    Json.arr [Json.num 10, Json.num 10] ≠ Json.arr [Json.num 20, Json.num 20] ∧
    Json.arr [Json.num 30, Json.num 30] ≠ Json.arr [Json.num 20, Json.num 20] ∧
    Json.getField (create_photo_object "I2/c.png" 2 (30, 30)) "imagePath" =
      some (Json.str "I2/c.png") ∧
    basename "c.png" = "c.png" ∧ ("c.png" : String) ≠ "b.png" := by
  have h := generate_etdx_ok sampleGen sampleUuids sizesByName
    "a.png" "b.png" "c.png" "d.png" (10, 10) (20, 20) (30, 30) (40, 40)
    "out" "kay1" [] sampleFields sampleEps rfl rfl rfl rfl rfl rfl
  have h1 : resultFrontPhotos (generate_etdx sampleGen sampleUuids sizesByName none
      ["a.png", "b.png", "c.png", "d.png"] "out" "kay1" []) =
      some (Json.arr
        [create_photo_object ("I1" ++ "/" ++ basename "a.png") 1 (10, 10),
         create_photo_object ("I2" ++ "/" ++ basename "c.png") 2 (30, 30)]) := by
    simp only [resultFrontPhotos, h, pagePhotos, Json.getField,
      lookupField_setField_self, frontPhotosOf]
    rfl
  refine ⟨h1, rfl, rfl, ?_, ?_, rfl, rfl, by decide⟩
  · intro hcontra
    simp only [Json.arr.injEq, List.cons.injEq, Json.num.injEq] at hcontra
    have : (10 : ℚ) = 20 := hcontra.1
    norm_num at this
  · intro hcontra
    simp only [Json.arr.injEq, List.cons.injEq, Json.num.injEq] at hcontra
    have : (30 : ℚ) = 20 := hcontra.1
    norm_num at this

/-- C10: a valid tuple in which the same source path occurs several times
(as padding produces) is still staged as four separate image entries, one
per freshly minted image-identifier directory, all four distinct and all
four among the archive members, and the two page documents still hold four
photo records in total: duplicate paths are never collapsed. -/
theorem duplicates_not_collapsed (gen : Generator) (u : UuidSupply)
    (sizes : String → Option (ℕ × ℕ)) (a b c d : String) (sa sb sc sd : ℕ × ℕ)
    (out name : String) (fs₀ : FS) (fields eps : List (String × Json))
    (ht : gen.page_template = Json.obj fields)
    (heps : lookupField fields "editedPaperSize" = some (Json.obj eps))
    (hsa : sizes a = some sa) (hsb : sizes b = some sb)
    (hsc : sizes c = some sc) (hsd : sizes d = some sd)
    (hdist : ([u.front_page_uuid, u.back_page_uuid, u.front1_img_uuid,
      u.front2_img_uuid, u.back1_img_uuid, u.back2_img_uuid] : List String).Nodup) :
    genIsOk (generate_etdx gen u sizes none [a, b, c, d] out name fs₀) = true ∧
    (resultImageMembers (generate_etdx gen u sizes none [a, b, c, d] out name
      fs₀)).length = 4 ∧
    (resultImageMembers (generate_etdx gen u sizes none [a, b, c, d] out name
      fs₀)).Nodup ∧
    List.Sublist
      (resultImageMembers (generate_etdx gen u sizes none [a, b, c, d] out name fs₀))
      (resultMembers (generate_etdx gen u sizes none [a, b, c, d] out name fs₀)) ∧
    resultPhotoCount (generate_etdx gen u sizes none [a, b, c, d] out name fs₀)
      = 4 := by
  have h := generate_etdx_ok gen u sizes a b c d sa sb sc sd out name fs₀ fields eps
    ht heps hsa hsb hsc hsd
  have hfp_f2 : u.front1_img_uuid ≠ u.front2_img_uuid := by
    intro e
    simp [e, List.nodup_cons] at hdist
  have hb1_b2 : u.back1_img_uuid ≠ u.back2_img_uuid := by
    intro e
    simp [e, List.nodup_cons] at hdist
  have hfpg_bpg : u.front_page_uuid ≠ u.back_page_uuid := by
    intro e
    simp [e, List.nodup_cons] at hdist
  refine ⟨by simp [genIsOk, h], ?_, ?_, ?_, ?_⟩
  · simp [resultImageMembers, h, imageMembersOf]
  · simp only [resultImageMembers, h, imageMembersOf]
    simp [List.nodup_cons, List.mem_cons, List.cons.injEq, hfp_f2, hb1_b2, hfpg_bpg]
  · simp only [resultImageMembers, resultMembers, h, membersOf]
    exact List.sublist_append_right _ _
  · simp [resultPhotoCount, resultFrontPhotos, resultBackPhotos, h, pagePhotos,
      Json.getField, lookupField_setField_self, frontPhotosOf, backPhotosOf]

/-- C10 witness: the tuple x.png, y.png, x.png, y.png — what padding a
two-image stream produces — still yields four distinct image entries and
four photo records. -/
theorem duplicates_not_collapsed_witness :
    sampleGen.page_template = Json.obj sampleFields ∧
    lookupField sampleFields "editedPaperSize" = some (Json.obj sampleEps) ∧
    sampleSizes "x.png" = some (1016, 638) ∧
    sampleSizes "y.png" = some (1016, 638) ∧
    ([sampleUuids.front_page_uuid, sampleUuids.back_page_uuid,
      sampleUuids.front1_img_uuid, sampleUuids.front2_img_uuid,
      sampleUuids.back1_img_uuid, sampleUuids.back2_img_uuid] :
        List String).Nodup ∧
    genIsOk (generate_etdx sampleGen sampleUuids sampleSizes none
      ["x.png", "y.png", "x.png", "y.png"] "out" "kay1" []) = true ∧
    (resultImageMembers (generate_etdx sampleGen sampleUuids sampleSizes none
      ["x.png", "y.png", "x.png", "y.png"] "out" "kay1" [])).length = 4 ∧
    (resultImageMembers (generate_etdx sampleGen sampleUuids sampleSizes none
      ["x.png", "y.png", "x.png", "y.png"] "out" "kay1" [])).Nodup ∧
    resultPhotoCount (generate_etdx sampleGen sampleUuids sampleSizes none
      ["x.png", "y.png", "x.png", "y.png"] "out" "kay1" []) = 4 := by
  have h := duplicates_not_collapsed sampleGen sampleUuids sampleSizes
    "x.png" "y.png" "x.png" "y.png" (1016, 638) (1016, 638) (1016, 638) (1016, 638)
    "out" "kay1" [] sampleFields sampleEps rfl rfl rfl rfl rfl rfl (by decide)
  exact ⟨rfl, rfl, rfl, rfl, by decide, h.1, h.2.1, h.2.2.1, h.2.2.2.2⟩

/-- C6 amended: a run on a valid 4-tuple that fails before the archive
file is created — because an image is unreadable or undecodable, or
because an I/O failure strikes any staging operation (index below
zipOpenIndex) — produces no archive and leaves no archive file, partial or
complete, under the output directory.  When the failure instead strikes a
zip-member write, after the archive file was created, the partial archive
file is left behind: see the counterexample. -/
theorem no_archive_on_pre_zip_failure (gen : Generator) (u : UuidSupply)
    (sizes : String → Option (ℕ × ℕ)) (failAt : Option ℕ) (j : ℕ)
    (a b c d out name : String) (fs₀ : FS)
    (h₀ : etdxPathOf out name ∉ fs₀)
    (H : (failAt = some j ∧ j < zipOpenIndex) ∨
      sizes a = none ∨ sizes b = none ∨ sizes c = none ∨ sizes d = none) :
    genIsOk (generate_etdx gen u sizes failAt [a, b, c, d] out name fs₀) = false ∧
    etdxPathOf out name ∉
      (generate_etdx gen u sizes failAt [a, b, c, d] out name fs₀).2 := by
  have hstage : (execOps sizes failAt
      (unitStageOps gen u sizes a b c d out name) 0
      (tempDirOf out name :: fs₀)).1.isSome = true := by
    rcases H with ⟨hfa, hj⟩ | hx | hx | hx | hx
    · subst hfa
      refine execOps_stops sizes j _ 0 _ (Nat.zero_le j) ?_
      have hl : (unitStageOps gen u sizes a b c d out name).length = 19 := rfl
      have hz : zipOpenIndex = 19 := rfl
      rw [hz] at hj
      rw [hl]
      omega
    · exact execOps_bad_read sizes failAt a _ 0 _
        (readImage_mem_stageOps gen u a b c d _ _ _).1 hx
    · exact execOps_bad_read sizes failAt b _ 0 _
        (readImage_mem_stageOps gen u a b c d _ _ _).2.1 hx
    · exact execOps_bad_read sizes failAt c _ 0 _
        (readImage_mem_stageOps gen u a b c d _ _ _).2.2.1 hx
    · exact execOps_bad_read sizes failAt d _ 0 _
        (readImage_mem_stageOps gen u a b c d _ _ _).2.2.2 hx
  have hf2 : (execOps sizes failAt
      (unitStageOps gen u sizes a b c d out name ++ [Op.fsAdd (etdxPathOf out name)])
      0 (tempDirOf out name :: fs₀)).1.isSome = true := by
    rw [execOps_append_fail sizes failAt _ _ _ _ hstage]
    exact hstage
  have hall : execOps sizes failAt (unitOps gen u sizes a b c d out name) 0
      (tempDirOf out name :: fs₀) =
      execOps sizes failAt (unitStageOps gen u sizes a b c d out name) 0
      (tempDirOf out name :: fs₀) := by
    unfold unitOps
    rw [execOps_append_fail sizes failAt _ _ _ _ hf2,
      execOps_append_fail sizes failAt _ _ _ _ hstage]
  obtain ⟨e, he⟩ := Option.isSome_iff_exists.mp hstage
  constructor
  · simp only [genIsOk, generate_etdx]
    rw [hall, he]
  · simp only [generate_etdx]
    intro hmem
    rw [hall] at hmem
    have hmem2 := (List.mem_filter.1 hmem).1
    rcases execOps_mem sizes failAt _ _ _ _ hmem2 with hin | ⟨op, hop, hpadds⟩
    · rcases List.mem_cons.1 hin with hin | hin
      · exact tempDir_ne_etdx out name hin.symm
      · exact h₀ hin
    · have h3 := stageOps_adds_three gen u a b c d _ _ out name op hop _ hpadds
      have h2 : (etdxPathOf out name).length = 2 := rfl
      omega

/-- C6 amended witness: injecting the failure at staging operation 0 of a
concrete run fails the run and leaves no archive file. -/
theorem no_archive_on_pre_zip_failure_witness :
    (etdxPathOf "out" "kay1" ∉ ([] : FS)) ∧
    (((some 0 : Option ℕ) = some 0 ∧ 0 < zipOpenIndex) ∨
      sampleSizes "a.png" = none ∨ sampleSizes "b.png" = none ∨
      sampleSizes "c.png" = none ∨ sampleSizes "d.png" = none) ∧
    genIsOk (generate_etdx sampleGen sampleUuids sampleSizes (some 0)
      ["a.png", "b.png", "c.png", "d.png"] "out" "kay1" []) = false ∧
    etdxPathOf "out" "kay1" ∉
      (generate_etdx sampleGen sampleUuids sampleSizes (some 0)
        ["a.png", "b.png", "c.png", "d.png"] "out" "kay1" []).2 := by
  have h := no_archive_on_pre_zip_failure sampleGen sampleUuids sampleSizes
    (some 0) 0 "a.png" "b.png" "c.png" "d.png" "out" "kay1" []
    (by decide) (Or.inl ⟨rfl, by decide⟩)
  exact ⟨by decide, Or.inl ⟨rfl, by decide⟩, h.1, h.2⟩

/-- C6 counterexample: with the I/O failure injected at operation index 20
— the first zip-member write, right after the archive file was created at
index 19 — the run fails with an IOError, yet the partial archive file
out/kay1.etdx still exists afterwards: the finally block removes only the
scratch directory, so the claim that a zipping failure leaves no partial
archive on disk is false. -/
theorem partial_archive_after_zip_failure_cex :
    (generate_etdx sampleGen sampleUuids sampleSizes (some 20)
        ["a.png", "b.png", "c.png", "d.png"] "out" "kay1" []).1 =
      Except.error GenError.ioError ∧
    etdxPathOf "out" "kay1" ∈
      (generate_etdx sampleGen sampleUuids sampleSizes (some 20)
        ["a.png", "b.png", "c.png", "d.png"] "out" "kay1" []).2 := by
  constructor
  · rfl
  · decide

end Etdx
